import Mathlib

/-!
Shallow embedding of the MDIO bus controller (`ag71xx_mdio.c`) and the MII
mode controller (`ath79-mii-ctrl.c`) from the ag71xx ethernet driver, with
theorems settling the specification claims about them.

Modelling conventions:
* 32-bit registers are `Nat` values; masking with `&&&` appears exactly where
  the C code masks.  No arithmetic here can overflow 32 bits except where an
  explicit `% 2^32` truncation is written.
* C functions returning `int` error codes are modelled as returning `Int`
  (`0` for success, `-EINVAL` / `-ETIMEDOUT` for errors), paired with the
  updated register state where the function writes registers.
* Hardware-driven register reads (the IND busy register) are modelled by an
  externally supplied sequence `ind : Nat → Nat` of read results, consumed at
  increasing time indices.
* Reads past the end of the divider table (the C code indexes out of bounds)
  are modelled by an externally supplied function `junk : Nat → Nat` giving
  the value found in the memory beyond the table.
* The uninitialized local variable `port` in `mii_ctrl_set_interface` is
  modelled by an explicit parameter `portJunk` holding its indeterminate
  value.
-/

/-! ### Error codes (from errno) -/

def EINVAL : Int := 22
def ETIMEDOUT : Int := 110

/-! ### MDIO controller constants (from `ag71xx_mdio.c`) -/

def AG71XX_MDIO_RATE : Nat := 2500000
def AG71XX_MDIO_RETRY : Nat := 1000
def AG71XX_MDIO_DELAY : Nat := 5

def MII_CMD_WRITE : Nat := 0x0
def MII_CMD_READ : Nat := 0x1
def MII_ADDR_SHIFT : Nat := 8
def MII_IND_BUSY : Nat := 1
def MII_IND_INVALID : Nat := 4

def MII_CFG_RESET : Nat := 2 ^ 31

/-! ### MDIO register file

The five registers the driver writes.  The IND register is read-only from the
driver's side and is modelled separately by the read sequence `ind`. -/

structure MdioRegs where
  mii_cfg : Nat
  mii_cmd : Nat
  mii_addr : Nat
  mii_ctrl : Nat
  mii_status : Nat
deriving DecidableEq

/-! ### ag71xx_mdio_wait_busy

C source: loop `for (i = 0; i < AG71XX_MDIO_RETRY; i++)`, each iteration reads
the whole IND register; `if (!busy) return 0;` — note the test is on the whole
register value, not on `MII_IND_BUSY`.  After the loop, return `-ETIMEDOUT`.
`waitBusyAux ind t fuel` runs the loop with `fuel` iterations remaining and
the next IND read taken at time `t`; it returns the error code and the time
after the last read. -/

def waitBusyAux (ind : Nat → Nat) : Nat → Nat → Int × Nat
  | t, 0 => (-ETIMEDOUT, t)
  | t, fuel + 1 => if ind t = 0 then (0, t + 1) else waitBusyAux ind (t + 1) fuel

def ag71xx_mdio_wait_busy (ind : Nat → Nat) (t : Nat) : Int × Nat :=
  waitBusyAux ind t AG71XX_MDIO_RETRY

/-! ### ag71xx_mdio_get_divider

C source: `ref_clock = clk_get_rate(am->ref_clk); if (!ref_clock) return
-EINVAL;` then `for (i = 0; i <= am->hw->div_table_size; i++)` reads
`div_table[i]` (note `<=`: the last iteration reads one element past the
table) and returns the first entry with `ref_clock / entry <= mdio_rate`;
after the loop the fallback reads `div_table[i]` with `i = size + 1`, two
elements past the table.  `divTableRead` returns the table entry when the
index is in bounds and the out-of-bounds memory value `junk i` otherwise. -/

def divTableRead (tbl : List Nat) (junk : Nat → Nat) (i : Nat) : Nat :=
  (tbl.get? i).getD (junk i)

def getDividerLoop (ref_clock mdio_rate : Nat) (tbl : List Nat)
    (junk : Nat → Nat) (i : Nat) : Int :=
  if h : i ≤ tbl.length then
    if ref_clock / divTableRead tbl junk i ≤ mdio_rate then
      (divTableRead tbl junk i : Int)
    else
      getDividerLoop ref_clock mdio_rate tbl junk (i + 1)
  else
    /- Fallback on the slowest possible clock -/
    (divTableRead tbl junk i : Int)
termination_by tbl.length + 1 - i
decreasing_by omega

def ag71xx_mdio_get_divider (ref_clock mdio_rate : Nat) (tbl : List Nat)
    (junk : Nat → Nat) : Int :=
  if ref_clock = 0 then -EINVAL
  else getDividerLoop ref_clock mdio_rate tbl junk 0

/-! ### ag71xx_mdio_reset

C source: `div = ag71xx_mdio_get_divider(am);` with `u32 div` — the `int`
return value, including a possible `-EINVAL`, is truncated to 32 bits and
never checked.  Then CFG is written to `div | MII_CFG_RESET`, then to `div`,
and the function returns 0 unconditionally.  The result is the error code and
the final CFG register value. -/

def ag71xx_mdio_reset (ref_clock mdio_rate : Nat) (tbl : List Nat)
    (junk : Nat → Nat) : Int × Nat :=
  let div := ((ag71xx_mdio_get_divider ref_clock mdio_rate tbl junk) % (2 ^ 32)).toNat
  let _cfg_during_reset := div ||| MII_CFG_RESET
  let cfg := div
  (0, cfg)

/-! ### ag71xx_mdio_read

C source: wait busy; on failure return the error.  Then write CMD :=
`MII_CMD_WRITE`, ADDR := `((addr & 0xff) << MII_ADDR_SHIFT) | (reg & 0xff)`,
CMD := `MII_CMD_READ`; wait busy again; on failure return the error.  Then
read `val = STATUS & 0xffff`, restore CMD := `MII_CMD_WRITE` and return
`val`.  Device and register addresses are the small non-negative values the
MDIO bus uses, modelled as `Nat`.  Result: (return value, register file,
time after the last IND read). -/

def ag71xx_mdio_read (ind : Nat → Nat) (regs : MdioRegs) (t : Nat)
    (addr reg : Nat) : Int × MdioRegs × Nat :=
  let w1 := ag71xx_mdio_wait_busy ind t
  if w1.1 ≠ 0 then (w1.1, regs, w1.2)
  else
    let regs := { regs with mii_cmd := MII_CMD_WRITE }
    let regs := { regs with
      mii_addr := ((addr &&& 0xff) <<< MII_ADDR_SHIFT) ||| (reg &&& 0xff) }
    let regs := { regs with mii_cmd := MII_CMD_READ }
    let w2 := ag71xx_mdio_wait_busy ind w1.2
    if w2.1 ≠ 0 then (w2.1, regs, w2.2)
    else
      let val := regs.mii_status &&& 0xffff
      let regs := { regs with mii_cmd := MII_CMD_WRITE }
      ((val : Int), regs, w2.2)

/-! ### Helper lemmas about the busy-wait loop -/

lemma waitBusyAux_timeout (ind : Nat → Nat) (t fuel : Nat)
    (h : ∀ i, i < fuel → ind (t + i) ≠ 0) :
    waitBusyAux ind t fuel = (-ETIMEDOUT, t + fuel) := by
  induction fuel generalizing t with
  | zero => simp [waitBusyAux]
  | succ n ih =>
    have h0 : ind t ≠ 0 := by simpa using h 0 (Nat.succ_pos n)
    have := ih (t + 1) (fun i hi => by
      have := h (i + 1) (by omega)
      simpa [Nat.add_assoc, Nat.add_comm 1 i] using this)
    simp [waitBusyAux, h0, this]
    omega

lemma waitBusyAux_first_zero (ind : Nat → Nat) (t fuel i : Nat)
    (hi : i < fuel) (hz : ind (t + i) = 0)
    (hmin : ∀ j, j < i → ind (t + j) ≠ 0) :
    waitBusyAux ind t fuel = (0, t + i + 1) := by
  induction i generalizing t fuel with
  | zero =>
    obtain ⟨n, rfl⟩ : ∃ n, fuel = n + 1 := ⟨fuel - 1, by omega⟩
    simp at hz
    simp [waitBusyAux, hz]
  | succ k ih =>
    obtain ⟨n, rfl⟩ : ∃ n, fuel = n + 1 := ⟨fuel - 1, by omega⟩
    have h0 : ind t ≠ 0 := by simpa using hmin 0 (Nat.succ_pos k)
    have step := ih (t + 1) n (by omega)
      (by simpa [Nat.add_assoc, Nat.add_comm 1 k] using hz)
      (fun j hj => by
        have := hmin (j + 1) (by omega)
        simpa [Nat.add_assoc, Nat.add_comm 1 j] using this)
    simp [waitBusyAux, h0, step]
    omega

lemma waitBusyAux_fst_or (ind : Nat → Nat) (t fuel : Nat) :
    (waitBusyAux ind t fuel).1 = 0 ∨ (waitBusyAux ind t fuel).1 = -ETIMEDOUT := by
  induction fuel generalizing t with
  | zero => simp [waitBusyAux]
  | succ n ih =>
    by_cases h : ind t = 0
    · simp [waitBusyAux, h]
    · simpa [waitBusyAux, h] using ih (t + 1)

lemma waitBusyAux_fst_eq_zero_iff (ind : Nat → Nat) (t fuel : Nat) :
    (waitBusyAux ind t fuel).1 = 0 ↔ ∃ i, i < fuel ∧ ind (t + i) = 0 := by
  induction fuel generalizing t with
  | zero => simp [waitBusyAux, ETIMEDOUT]
  | succ n ih =>
    by_cases h : ind t = 0
    · have hz : (waitBusyAux ind t (n + 1)).1 = 0 := by simp [waitBusyAux, h]
      exact iff_of_true hz ⟨0, Nat.succ_pos n, by simpa using h⟩
    · simp only [waitBusyAux, h, if_neg, ite_false]
      rw [ih (t + 1)]
      constructor
      · rintro ⟨i, hi, hz⟩
        exact ⟨i + 1, by omega, by simpa [Nat.add_assoc, Nat.add_comm 1 i] using hz⟩
      · rintro ⟨i, hi, hz⟩
        match i with
        | 0 => exact absurd (by simpa using hz) h
        | j + 1 =>
          exact ⟨j, by omega, by simpa [Nat.add_assoc, Nat.add_comm 1 j] using hz⟩

/-! ### MII mode controller constants (from `ath79-mii-ctrl.c`) -/

def MII_CTRL_SELECT_SHIFT : Nat := 0
def MII_CTRL_SELECT_MASK : Nat := 0x3

def MII_CTRL_SELECT_PORT1_MASK : Nat := 0x1

def MII_CTRL_SELECT_GMII : Nat := 0
def MII_CTRL_SELECT_MII : Nat := 1
def MII_CTRL_SELECT_RGMII : Nat := 2
def MII_CTRL_SELECT_RMII : Nat := 3

def MII_CTRL_SPEED_SHIFT : Nat := 4
def MII_CTRL_SPEED_MASK : Nat := 0x3

def MII_CTRL_SPEED_10 : Nat := 0
def MII_CTRL_SPEED_100 : Nat := 1
def MII_CTRL_SPEED_1000 : Nat := 2

/-- The `phy_interface_t` values the two switch statements distinguish;
`other` stands for every mode that falls into the `default:` arm. -/
inductive PhyInterfaceMode where
  | gmii
  | mii
  | rgmii
  | rmii
  | other
deriving DecidableEq

/-- A `struct mii_ctrl_handle` together with the fields of the
`struct mii_ctrl` it points to that the mode/speed operations consult:
the stored port index and the gigabit capability flag. -/
structure MiiCtrlHandle where
  port : Nat
  has_gbit : Bool
deriving DecidableEq

/-! ### mii_ctrl_set_interface

C source, line for line: read `val` from the port's register word and extract
`speed`;  the first `switch (iface)` checks `if (port > 0)` for GMII/MII —
where `port` is a local variable that is NEVER initialized from `hdl->port`
(its indeterminate contents are the parameter `portJunk` here) — and picks
`select`, returning `-EINVAL` for unhandled modes;  then
`if (port == 1) select &= MII_CTRL_SELECT_PORT1_MASK;` (same uninitialized
local);  the second `switch (iface)` rejects GMII/RGMII without the gigabit
capability and clamps `speed` to at most `MII_CTRL_SPEED_100` for MII/RMII;
finally the word `(select << SELECT_SHIFT) | (speed << SPEED_SHIFT)` is
written back to the port's slot.  `regs` maps a port index to its register
word; the first component of the result is the C return value. -/

def mii_ctrl_set_interface (hdl : MiiCtrlHandle) (portJunk : Nat)
    (regs : Nat → Nat) (iface : PhyInterfaceMode) : Int × (Nat → Nat) :=
  let val := regs hdl.port
  let speed := (val >>> MII_CTRL_SPEED_SHIFT) &&& MII_CTRL_SPEED_MASK
  let select? : Option Nat :=
    match iface with
    | .gmii =>
      /- GMII is only supported on port 0 — but the compared `port` local
         is uninitialized in the C code -/
      if portJunk > 0 then none else some MII_CTRL_SELECT_GMII
    | .mii =>
      /- MII is only supported on port 0 — same uninitialized local -/
      if portJunk > 0 then none else some MII_CTRL_SELECT_MII
    | .rgmii => some MII_CTRL_SELECT_RGMII
    | .rmii => some MII_CTRL_SELECT_RMII
    | .other => none
  match select? with
  | none => (-EINVAL, regs)
  | some select =>
    /- The select field is smaller on port 1 (uninitialized local again) -/
    let select := if portJunk = 1 then select &&& MII_CTRL_SELECT_PORT1_MASK
                  else select
    match iface with
    | .gmii | .rgmii =>
      /- Make sure gigabit is supported -/
      if !hdl.has_gbit then (-EINVAL, regs)
      else
        let val := (select <<< MII_CTRL_SELECT_SHIFT) |||
                   (speed <<< MII_CTRL_SPEED_SHIFT)
        (0, fun p => if p = hdl.port then val else regs p)
    | .mii | .rmii =>
      /- Make sure the speed is compatible -/
      let speed := if speed > MII_CTRL_SPEED_100 then MII_CTRL_SPEED_100
                   else speed
      let val := (select <<< MII_CTRL_SELECT_SHIFT) |||
                 (speed <<< MII_CTRL_SPEED_SHIFT)
      (0, fun p => if p = hdl.port then val else regs p)
    | .other => (-EINVAL, regs)

/-! ### mii_ctrl_set_speed

C source: read `val` from the port's register word and extract `select`;
`switch (link_speed)`: `case 10:` assigns `speed = MII_CTRL_SPEED_10` but has
NO `break`, so control falls through into `case 100:` which overwrites it
with `MII_CTRL_SPEED_100`;  `case 1000:` rejects MII/RMII select values and
assigns `MII_CTRL_SPEED_1000`;  `default:` returns `-EINVAL`.  Then the word
`(select << SELECT_SHIFT) | (speed << SPEED_SHIFT)` is written back. -/

def mii_ctrl_set_speed (hdl : MiiCtrlHandle) (regs : Nat → Nat)
    (link_speed : Int) : Int × (Nat → Nat) :=
  let val := regs hdl.port
  let select := (val >>> MII_CTRL_SELECT_SHIFT) &&& MII_CTRL_SELECT_MASK
  let speed? : Option Nat :=
    if link_speed = 10 then
      /- case 10: `speed = MII_CTRL_SPEED_10;` then falls through into
         case 100 (no break), whose assignment overwrites it -/
      let _speed_dead_store := MII_CTRL_SPEED_10
      let speed := MII_CTRL_SPEED_100
      some speed
    else if link_speed = 100 then
      some MII_CTRL_SPEED_100
    else if link_speed = 1000 then
      /- gigabit is not supported with (r)mii -/
      if select = MII_CTRL_SELECT_MII ∨ select = MII_CTRL_SELECT_RMII then
        none
      else
        some MII_CTRL_SPEED_1000
    else none
  match speed? with
  | none => (-EINVAL, regs)
  | some speed =>
    let val := (select <<< MII_CTRL_SELECT_SHIFT) |||
               (speed <<< MII_CTRL_SPEED_SHIFT)
    (0, fun p => if p = hdl.port then val else regs p)

/-! ### Further busy-wait helpers -/

lemma ag71xx_mdio_wait_busy_fst_or (ind : Nat → Nat) (t : Nat) :
    (ag71xx_mdio_wait_busy ind t).1 = 0 ∨
    (ag71xx_mdio_wait_busy ind t).1 = -ETIMEDOUT :=
  waitBusyAux_fst_or ind t AG71XX_MDIO_RETRY

/-! ### Claim theorems: MDIO controller -/

/-- C1: the claim states that divider selection never accesses an index
outside the table bounds and falls back to the slowest (last) table entry.
The code loops with `i <= div_table_size` and falls back to
`div_table[div_table_size + 1]`: on table `[1]` with reference clock 100 and
target rate 0 no entry qualifies, and the returned value is exactly the
out-of-bounds memory content at index 2 (here 7, respectively 9), not the
table's last entry 1.  This evaluates the code at the failing input and shows
the result depends on memory beyond the table. -/
theorem ag71xx_mdio_get_divider_reads_out_of_bounds :
    ag71xx_mdio_get_divider 100 0 [1] (fun _ => 7) = 7 ∧
    ag71xx_mdio_get_divider 100 0 [1] (fun _ => 9) = 9 := by
  constructor <;>
    · rw [ag71xx_mdio_get_divider]
      rw [if_neg (by norm_num)]
      rw [getDividerLoop, getDividerLoop, getDividerLoop]
      norm_num [divTableRead]

/-- C4: the claim states that with a zero reference clock, reset reports an
invalid-configuration error to its caller.  The code stores the `int` return
of `ag71xx_mdio_get_divider` into a `u32` without checking it: with reference
clock 0 the reset still returns 0 (success) and leaves the CFG register
holding the truncated error code `2^32 - 22` (the 32-bit image of `-EINVAL`).
This evaluates the code at the failing input. -/
theorem ag71xx_mdio_reset_swallows_einval :
    (ag71xx_mdio_reset 0 AG71XX_MDIO_RATE [4, 6, 8, 10] (fun _ => 0)).1 = 0 ∧
    (ag71xx_mdio_reset 0 AG71XX_MDIO_RATE [4, 6, 8, 10] (fun _ => 0)).2 =
      2 ^ 32 - 22 := by
  constructor
  · rfl
  · rw [ag71xx_mdio_reset, ag71xx_mdio_get_divider, if_pos rfl]
    decide

/-- C5 (counterexample): the claim states `waitIdle` succeeds as soon as the
busy bit (bit 0) of the IND register is clear, and times out only when the
busy bit stays set for all 1000 polls.  If every IND read returns
`MII_IND_INVALID` (bit 2 set, busy bit 0 clear), the busy bit is clear from
the very first poll, yet the code — which tests the whole register against
zero — runs all 1000 polls and returns `-ETIMEDOUT`. -/
theorem ag71xx_mdio_wait_busy_ignores_busy_bit :
    ((fun _ : Nat => MII_IND_INVALID) 0) &&& MII_IND_BUSY = 0 ∧
    (ag71xx_mdio_wait_busy (fun _ => MII_IND_INVALID) 0).1 = -ETIMEDOUT := by
  refine ⟨by decide, ?_⟩
  have h := waitBusyAux_timeout (fun _ => MII_IND_INVALID) 0 AG71XX_MDIO_RETRY
    (fun i _ => by simp [MII_IND_INVALID])
  simp [ag71xx_mdio_wait_busy, h]

/-- C5 (amended): `waitIdle` returns success as soon as the whole IND
register reads zero: it succeeds exactly when one of the first 1000 polls
reads zero, stopping at the first such poll (having consumed `i + 1` reads
when poll `i` is the first zero), and returns `-ETIMEDOUT` exactly when all
1000 polls read a nonzero register value. -/
theorem ag71xx_mdio_wait_busy_spec (ind : Nat → Nat) :
    ((ag71xx_mdio_wait_busy ind 0).1 = 0 ↔
      ∃ i, i < AG71XX_MDIO_RETRY ∧ ind i = 0) ∧
    ((∀ i, i < AG71XX_MDIO_RETRY → ind i ≠ 0) →
      ag71xx_mdio_wait_busy ind 0 = (-ETIMEDOUT, AG71XX_MDIO_RETRY)) ∧
    (∀ i, i < AG71XX_MDIO_RETRY → ind i = 0 → (∀ j, j < i → ind j ≠ 0) →
      ag71xx_mdio_wait_busy ind 0 = (0, i + 1)) := by
  refine ⟨?_, ?_, ?_⟩
  · simpa using waitBusyAux_fst_eq_zero_iff ind 0 AG71XX_MDIO_RETRY
  · intro h
    simpa [ag71xx_mdio_wait_busy] using
      waitBusyAux_timeout ind 0 AG71XX_MDIO_RETRY (fun i hi => by simpa using h i hi)
  · intro i hi hz hmin
    simpa [ag71xx_mdio_wait_busy] using
      waitBusyAux_first_zero ind 0 AG71XX_MDIO_RETRY i hi (by simpa using hz)
        (fun j hj => by simpa using hmin j hj)

/-- C5 witness: with the IND register reading zero at the first poll,
`waitIdle` succeeds immediately after one read. -/
theorem ag71xx_mdio_wait_busy_spec_witness :
    ag71xx_mdio_wait_busy (fun _ => 0) 0 = (0, 0 + 1) :=
  (ag71xx_mdio_wait_busy_spec (fun _ => 0)).2.2 0 (by decide) rfl
    (fun j hj => absurd hj (Nat.not_lt_zero j))

/-- C6: a successful `ag71xx_mdio_read` leaves ADDR holding the packed pair
`((addr & 0xff) << 8) | (reg & 0xff)`, returns the STATUS register value
masked to 16 bits, and leaves CMD in write-mode.  The post-transaction
restore of CMD (the final `MII_CMD_WRITE` write) is reached exactly on the
success path, so a non-negative return value characterises the calls that
reached it; both failure paths return `-ETIMEDOUT < 0` before that step. -/
theorem ag71xx_mdio_read_success_spec (ind : Nat → Nat) (regs : MdioRegs)
    (t : Nat) (addr reg : Nat)
    (h : 0 ≤ (ag71xx_mdio_read ind regs t addr reg).1) :
    (ag71xx_mdio_read ind regs t addr reg).2.1.mii_addr =
      ((addr &&& 0xff) <<< MII_ADDR_SHIFT) ||| (reg &&& 0xff) ∧
    (ag71xx_mdio_read ind regs t addr reg).1 =
      ((regs.mii_status &&& 0xffff : Nat) : Int) ∧
    (ag71xx_mdio_read ind regs t addr reg).2.1.mii_cmd = MII_CMD_WRITE := by
  rcases ag71xx_mdio_wait_busy_fst_or ind t with h1 | h1
  · rcases ag71xx_mdio_wait_busy_fst_or ind (ag71xx_mdio_wait_busy ind t).2
      with h2 | h2
    · simp [ag71xx_mdio_read, h1, h2]
    · exfalso
      rw [ag71xx_mdio_read] at h
      simp only [h1, h2] at h
      norm_num [ETIMEDOUT] at h
  · exfalso
    rw [ag71xx_mdio_read] at h
    simp only [h1] at h
    norm_num [ETIMEDOUT] at h

/-- C6 witness: with the IND register always reading zero and STATUS holding
`0x12345`, the read succeeds, packs device address 1 and register address 2
into ADDR, returns `0x2345` and restores CMD to write-mode. -/
theorem ag71xx_mdio_read_success_spec_witness :
    (ag71xx_mdio_read (fun _ => 0) ⟨0, 0, 0, 0, 74565⟩ 0 1 2).2.1.mii_addr =
      ((1 &&& 0xff) <<< MII_ADDR_SHIFT) ||| (2 &&& 0xff) ∧
    (ag71xx_mdio_read (fun _ => 0) ⟨0, 0, 0, 0, 74565⟩ 0 1 2).1 =
      (((⟨0, 0, 0, 0, 74565⟩ : MdioRegs).mii_status &&& 0xffff : Nat) : Int) ∧
    (ag71xx_mdio_read (fun _ => 0) ⟨0, 0, 0, 0, 74565⟩ 0 1 2).2.1.mii_cmd =
      MII_CMD_WRITE :=
  ag71xx_mdio_read_success_spec (fun _ => 0) ⟨0, 0, 0, 0, 74565⟩ 0 1 2
    (by decide)

/-! ### Helper lemmas about the MII register word fields -/

lemma mii_word_fields (select speed : Nat) (hs : select ≤ 3) (hp : speed ≤ 3) :
    ((select <<< MII_CTRL_SELECT_SHIFT ||| speed <<< MII_CTRL_SPEED_SHIFT) >>>
        MII_CTRL_SELECT_SHIFT) &&& MII_CTRL_SELECT_MASK = select ∧
    ((select <<< MII_CTRL_SELECT_SHIFT ||| speed <<< MII_CTRL_SPEED_SHIFT) >>>
        MII_CTRL_SPEED_SHIFT) &&& MII_CTRL_SPEED_MASK = speed := by
  simp only [MII_CTRL_SELECT_SHIFT, MII_CTRL_SPEED_SHIFT, MII_CTRL_SELECT_MASK,
    MII_CTRL_SPEED_MASK]
  interval_cases select <;> interval_cases speed <;> decide

lemma select_field_le (w : Nat) :
    (w >>> MII_CTRL_SELECT_SHIFT) &&& MII_CTRL_SELECT_MASK ≤ 3 :=
  Nat.and_le_right

lemma speed_field_le (w : Nat) :
    (w >>> MII_CTRL_SPEED_SHIFT) &&& MII_CTRL_SPEED_MASK ≤ 3 :=
  Nat.and_le_right

/-- Helper: `mii_ctrl_set_speed` at 1000 Mb/s with the current select field
equal to MII or RMII rejects the request without writing. -/
lemma set_speed_1000_reject (hdl : MiiCtrlHandle) (regs : Nat → Nat)
    (h : (regs hdl.port >>> MII_CTRL_SELECT_SHIFT) &&& MII_CTRL_SELECT_MASK =
           MII_CTRL_SELECT_MII ∨
         (regs hdl.port >>> MII_CTRL_SELECT_SHIFT) &&& MII_CTRL_SELECT_MASK =
           MII_CTRL_SELECT_RMII) :
    mii_ctrl_set_speed hdl regs 1000 = (-EINVAL, regs) := by
  simp only [mii_ctrl_set_speed]
  norm_num
  rw [if_pos h]

/-- Helper: `mii_ctrl_set_speed` at 1000 Mb/s with any other select field
succeeds and writes the word with speed code `MII_CTRL_SPEED_1000`. -/
lemma set_speed_1000_accept (hdl : MiiCtrlHandle) (regs : Nat → Nat)
    (h : ¬((regs hdl.port >>> MII_CTRL_SELECT_SHIFT) &&& MII_CTRL_SELECT_MASK =
             MII_CTRL_SELECT_MII ∨
           (regs hdl.port >>> MII_CTRL_SELECT_SHIFT) &&& MII_CTRL_SELECT_MASK =
             MII_CTRL_SELECT_RMII)) :
    mii_ctrl_set_speed hdl regs 1000 =
      (0, fun p => if p = hdl.port then
            ((regs hdl.port >>> MII_CTRL_SELECT_SHIFT) &&& MII_CTRL_SELECT_MASK)
              <<< MII_CTRL_SELECT_SHIFT |||
            MII_CTRL_SPEED_1000 <<< MII_CTRL_SPEED_SHIFT
          else regs p) := by
  simp only [mii_ctrl_set_speed]
  norm_num
  rw [if_neg h]

/-! ### Claim theorems: MII mode controller -/

/-- C2: the claim states `setSpeed(10)` writes speed code 0
(`MII_CTRL_SPEED_10`).  The `case 10:` arm of the switch has no `break` and
falls through into `case 100:`, so the code instead writes speed code 1
(`MII_CTRL_SPEED_100`): starting from register word 0 on port 0, requesting
10 Mb/s succeeds but stores speed code 1, not 0.  This evaluates the code at
the failing input. -/
theorem mii_ctrl_set_speed_10_misencodes :
    (mii_ctrl_set_speed ⟨0, true⟩ (fun _ => 0) 10).1 = 0 ∧
    ((mii_ctrl_set_speed ⟨0, true⟩ (fun _ => 0) 10).2 0 >>>
        MII_CTRL_SPEED_SHIFT) &&& MII_CTRL_SPEED_MASK = MII_CTRL_SPEED_100 ∧
    MII_CTRL_SPEED_100 ≠ MII_CTRL_SPEED_10 := by
  refine ⟨rfl, rfl, by decide⟩

/-- C3: the claim states `setInterface` with GMII fails with
invalid-configuration on every handle whose stored port index is not 0, the
validation being against `hdl->port`.  The code instead compares a local
variable `port` that is never initialized: on a handle with stored port
index 1 and gigabit capability, requesting GMII succeeds when the
indeterminate local happens to hold 0, and fails when it happens to hold 5 —
the outcome depends on the uninitialized local, not on the handle's stored
port index.  This evaluates the code at the failing input. -/
theorem mii_ctrl_set_interface_uses_uninitialized_port :
    (mii_ctrl_set_interface ⟨1, true⟩ 0 (fun _ => 0) .gmii).1 = 0 ∧
    (mii_ctrl_set_interface ⟨1, true⟩ 5 (fun _ => 0) .gmii).1 = -EINVAL := by
  exact ⟨rfl, rfl⟩

/-- C7: `setSpeed(1000)` fails with invalid-configuration exactly when the
select field currently stored in the port's register word is MII (1) or
RMII (3) — leaving the register untouched — and otherwise succeeds and
writes speed code `MII_CTRL_SPEED_1000` (2). -/
theorem mii_ctrl_set_speed_1000_spec (hdl : MiiCtrlHandle) (regs : Nat → Nat) :
    (((regs hdl.port >>> MII_CTRL_SELECT_SHIFT) &&& MII_CTRL_SELECT_MASK =
        MII_CTRL_SELECT_MII ∨
      (regs hdl.port >>> MII_CTRL_SELECT_SHIFT) &&& MII_CTRL_SELECT_MASK =
        MII_CTRL_SELECT_RMII) →
      mii_ctrl_set_speed hdl regs 1000 = (-EINVAL, regs)) ∧
    (¬((regs hdl.port >>> MII_CTRL_SELECT_SHIFT) &&& MII_CTRL_SELECT_MASK =
         MII_CTRL_SELECT_MII ∨
       (regs hdl.port >>> MII_CTRL_SELECT_SHIFT) &&& MII_CTRL_SELECT_MASK =
         MII_CTRL_SELECT_RMII) →
      (mii_ctrl_set_speed hdl regs 1000).1 = 0 ∧
      ((mii_ctrl_set_speed hdl regs 1000).2 hdl.port >>>
          MII_CTRL_SPEED_SHIFT) &&& MII_CTRL_SPEED_MASK = MII_CTRL_SPEED_1000) := by
  constructor
  · exact set_speed_1000_reject hdl regs
  · intro h
    rw [set_speed_1000_accept hdl regs h]
    refine ⟨rfl, ?_⟩
    simp only [if_pos rfl]
    exact (mii_word_fields _ _ (select_field_le _) (by norm_num [MII_CTRL_SPEED_1000])).2

/-- C7 witness: on a register word with select field GMII (0), requesting
1000 Mb/s succeeds and stores speed code 2. -/
theorem mii_ctrl_set_speed_1000_spec_witness :
    (mii_ctrl_set_speed ⟨0, true⟩ (fun _ => 0) 1000).1 = 0 ∧
    ((mii_ctrl_set_speed ⟨0, true⟩ (fun _ => 0) 1000).2 0 >>>
        MII_CTRL_SPEED_SHIFT) &&& MII_CTRL_SPEED_MASK = MII_CTRL_SPEED_1000 :=
  (mii_ctrl_set_speed_1000_spec ⟨0, true⟩ (fun _ => 0)).2 (by decide)

/-- C9: `setSpeed` never consults the gigabit capability flag — its result
is identical on controllers with and without gigabit support — and a
1000 Mb/s request succeeds whenever the current select field is GMII (0) or
RGMII (2), even with `has_gbit = false`. -/
theorem mii_ctrl_set_speed_ignores_gbit (port : Nat) (regs : Nat → Nat)
    (link_speed : Int) :
    mii_ctrl_set_speed ⟨port, false⟩ regs link_speed =
      mii_ctrl_set_speed ⟨port, true⟩ regs link_speed ∧
    (((regs port >>> MII_CTRL_SELECT_SHIFT) &&& MII_CTRL_SELECT_MASK =
        MII_CTRL_SELECT_GMII ∨
      (regs port >>> MII_CTRL_SELECT_SHIFT) &&& MII_CTRL_SELECT_MASK =
        MII_CTRL_SELECT_RGMII) →
      (mii_ctrl_set_speed ⟨port, false⟩ regs 1000).1 = 0) := by
  constructor
  · rfl
  · intro h
    have hne : ¬((regs (⟨port, false⟩ : MiiCtrlHandle).port >>>
          MII_CTRL_SELECT_SHIFT) &&& MII_CTRL_SELECT_MASK =
            MII_CTRL_SELECT_MII ∨
        (regs (⟨port, false⟩ : MiiCtrlHandle).port >>>
          MII_CTRL_SELECT_SHIFT) &&& MII_CTRL_SELECT_MASK =
            MII_CTRL_SELECT_RMII) := by
      rcases h with h | h <;>
        simp_all [MII_CTRL_SELECT_GMII, MII_CTRL_SELECT_RGMII,
          MII_CTRL_SELECT_MII, MII_CTRL_SELECT_RMII]
    rw [set_speed_1000_accept ⟨port, false⟩ regs hne]

/-- C9 witness: with select field GMII and no gigabit capability, the
controllers with and without gigabit behave identically and the 1000 Mb/s
request succeeds. -/
theorem mii_ctrl_set_speed_ignores_gbit_witness :
    mii_ctrl_set_speed ⟨0, false⟩ (fun _ => 0) 1000 =
      mii_ctrl_set_speed ⟨0, true⟩ (fun _ => 0) 1000 ∧
    (mii_ctrl_set_speed ⟨0, false⟩ (fun _ => 0) 1000).1 = 0 :=
  ⟨(mii_ctrl_set_speed_ignores_gbit 0 (fun _ => 0) 1000).1,
   (mii_ctrl_set_speed_ignores_gbit 0 (fun _ => 0) 1000).2 (by decide)⟩

/-- Helper: on success, `mii_ctrl_set_speed` writes the port's word as the
preserved select field together with some speed code at most 3. -/
lemma set_speed_success_shape (hdl : MiiCtrlHandle) (regs : Nat → Nat)
    (link_speed : Int)
    (h : (mii_ctrl_set_speed hdl regs link_speed).1 = 0) :
    ∃ speed, speed ≤ 3 ∧
      (mii_ctrl_set_speed hdl regs link_speed).2 hdl.port =
        ((regs hdl.port >>> MII_CTRL_SELECT_SHIFT) &&& MII_CTRL_SELECT_MASK)
          <<< MII_CTRL_SELECT_SHIFT ||| speed <<< MII_CTRL_SPEED_SHIFT := by
  by_cases h10 : link_speed = 10
  · exact ⟨MII_CTRL_SPEED_100, by norm_num [MII_CTRL_SPEED_100],
      by simp [mii_ctrl_set_speed, h10]⟩
  · by_cases h100 : link_speed = 100
    · exact ⟨MII_CTRL_SPEED_100, by norm_num [MII_CTRL_SPEED_100],
        by simp [mii_ctrl_set_speed, h10, h100]⟩
    · by_cases h1000 : link_speed = 1000
      · by_cases hsel :
          (regs hdl.port >>> MII_CTRL_SELECT_SHIFT) &&& MII_CTRL_SELECT_MASK =
            MII_CTRL_SELECT_MII ∨
          (regs hdl.port >>> MII_CTRL_SELECT_SHIFT) &&& MII_CTRL_SELECT_MASK =
            MII_CTRL_SELECT_RMII
        · exfalso
          rw [h1000, set_speed_1000_reject hdl regs hsel] at h
          norm_num [EINVAL] at h
        · exact ⟨MII_CTRL_SPEED_1000, by norm_num [MII_CTRL_SPEED_1000],
            by rw [h1000, set_speed_1000_accept hdl regs hsel]; simp⟩
      · exfalso
        simp only [mii_ctrl_set_speed, h10, h100, h1000, if_false] at h
        norm_num [EINVAL] at h

/-- Helper: on success, `mii_ctrl_set_interface` writes the port's word as
some select code at most 3 together with the stored speed field, clamped to
`MII_CTRL_SPEED_100` exactly when the new mode is MII or RMII and the stored
speed code exceeds `MII_CTRL_SPEED_100`. -/
lemma set_interface_success_shape (hdl : MiiCtrlHandle) (portJunk : Nat)
    (regs : Nat → Nat) (iface : PhyInterfaceMode)
    (h : (mii_ctrl_set_interface hdl portJunk regs iface).1 = 0) :
    ∃ select, select ≤ 3 ∧
      (mii_ctrl_set_interface hdl portJunk regs iface).2 hdl.port =
        select <<< MII_CTRL_SELECT_SHIFT |||
        (if (iface = .mii ∨ iface = .rmii) ∧ MII_CTRL_SPEED_100 <
              (regs hdl.port >>> MII_CTRL_SPEED_SHIFT) &&& MII_CTRL_SPEED_MASK
         then MII_CTRL_SPEED_100
         else (regs hdl.port >>> MII_CTRL_SPEED_SHIFT) &&& MII_CTRL_SPEED_MASK)
          <<< MII_CTRL_SPEED_SHIFT := by
  cases iface with
  | gmii =>
    by_cases hpj : portJunk > 0
    · exfalso
      simp only [mii_ctrl_set_interface, hpj, if_true] at h
      norm_num [EINVAL] at h
    · by_cases hgb : hdl.has_gbit
      · refine ⟨if portJunk = 1 then MII_CTRL_SELECT_GMII &&&
            MII_CTRL_SELECT_PORT1_MASK else MII_CTRL_SELECT_GMII, ?_, ?_⟩
        · split_ifs <;> norm_num [MII_CTRL_SELECT_GMII,
            MII_CTRL_SELECT_PORT1_MASK]
        · simp [mii_ctrl_set_interface, hpj, hgb]
      · exfalso
        simp only [mii_ctrl_set_interface, hpj, if_false] at h
        simp only [Bool.not_eq_true] at hgb
        simp [hgb, EINVAL] at h
  | mii =>
    by_cases hpj : portJunk > 0
    · exfalso
      simp only [mii_ctrl_set_interface, hpj, if_true] at h
      norm_num [EINVAL] at h
    · refine ⟨if portJunk = 1 then MII_CTRL_SELECT_MII &&&
          MII_CTRL_SELECT_PORT1_MASK else MII_CTRL_SELECT_MII, ?_, ?_⟩
      · split_ifs <;> norm_num [MII_CTRL_SELECT_MII,
          MII_CTRL_SELECT_PORT1_MASK]
      · simp [mii_ctrl_set_interface, hpj]
  | rgmii =>
    by_cases hgb : hdl.has_gbit
    · refine ⟨if portJunk = 1 then MII_CTRL_SELECT_RGMII &&&
          MII_CTRL_SELECT_PORT1_MASK else MII_CTRL_SELECT_RGMII, ?_, ?_⟩
      · split_ifs <;> norm_num [MII_CTRL_SELECT_RGMII,
          MII_CTRL_SELECT_PORT1_MASK]
      · simp [mii_ctrl_set_interface, hgb]
    · exfalso
      simp only [mii_ctrl_set_interface] at h
      simp only [Bool.not_eq_true] at hgb
      simp [hgb, EINVAL] at h
  | rmii =>
    refine ⟨if portJunk = 1 then MII_CTRL_SELECT_RMII &&&
        MII_CTRL_SELECT_PORT1_MASK else MII_CTRL_SELECT_RMII, ?_, ?_⟩
    · split_ifs <;> norm_num [MII_CTRL_SELECT_RMII,
        MII_CTRL_SELECT_PORT1_MASK]
    · simp [mii_ctrl_set_interface]
  | other =>
    exfalso
    simp only [mii_ctrl_set_interface] at h
    norm_num [EINVAL] at h

/-- Helper: `mii_ctrl_set_interface` either succeeds or returns `-EINVAL`
with the register map untouched. -/
lemma set_interface_zero_or_error (hdl : MiiCtrlHandle) (portJunk : Nat)
    (regs : Nat → Nat) (iface : PhyInterfaceMode) :
    (mii_ctrl_set_interface hdl portJunk regs iface).1 = 0 ∨
    mii_ctrl_set_interface hdl portJunk regs iface = (-EINVAL, regs) := by
  cases iface <;> simp only [mii_ctrl_set_interface] <;>
    first
      | (split_ifs <;> simp)
      | simp

/-- Helper: `mii_ctrl_set_speed` either succeeds or returns `-EINVAL` with
the register map untouched. -/
lemma set_speed_zero_or_error (hdl : MiiCtrlHandle) (regs : Nat → Nat)
    (link_speed : Int) :
    (mii_ctrl_set_speed hdl regs link_speed).1 = 0 ∨
    mii_ctrl_set_speed hdl regs link_speed = (-EINVAL, regs) := by
  simp only [mii_ctrl_set_speed]
  split_ifs <;> simp

/-- C10: both operations are atomic on error — every invalid-configuration
return happens before the register write, so the register map is unchanged
whenever a nonzero error code is returned. -/
theorem mii_ctrl_error_atomicity (hdl : MiiCtrlHandle) (portJunk : Nat)
    (regs : Nat → Nat) (iface : PhyInterfaceMode) (link_speed : Int) :
    ((mii_ctrl_set_interface hdl portJunk regs iface).1 ≠ 0 →
      (mii_ctrl_set_interface hdl portJunk regs iface).2 = regs) ∧
    ((mii_ctrl_set_speed hdl regs link_speed).1 ≠ 0 →
      (mii_ctrl_set_speed hdl regs link_speed).2 = regs) := by
  constructor
  · intro h
    rcases set_interface_zero_or_error hdl portJunk regs iface with h0 | he
    · exact absurd h0 h
    · rw [he]
  · intro h
    rcases set_speed_zero_or_error hdl regs link_speed with h0 | he
    · exact absurd h0 h
    · rw [he]

/-- C10 witness: an unsupported interface mode and an unsupported speed both
fail and leave the register map untouched. -/
theorem mii_ctrl_error_atomicity_witness :
    (mii_ctrl_set_interface ⟨0, true⟩ 0 (fun _ => 0) .other).2 =
      (fun _ => 0) ∧
    (mii_ctrl_set_speed ⟨0, true⟩ (fun _ => 0) 55).2 = (fun _ => 0) :=
  ⟨(mii_ctrl_error_atomicity ⟨0, true⟩ 0 (fun _ => 0) .other 55).1 (by decide),
   (mii_ctrl_error_atomicity ⟨0, true⟩ 0 (fun _ => 0) .other 55).2 (by decide)⟩

/-- C8 (counterexample): the claim states every successful `setInterface`
leaves the speed field unchanged.  On port 0 with stored word 32 (speed code
2, i.e. 1000 Mb/s), `setInterface(RMII)` succeeds but clamps the speed field
to 1 (`MII_CTRL_SPEED_100`), so the speed field is not preserved. -/
theorem mii_ctrl_set_interface_clamps_speed :
    (mii_ctrl_set_interface ⟨0, true⟩ 0 (fun _ => 32) .rmii).1 = 0 ∧
    ((mii_ctrl_set_interface ⟨0, true⟩ 0 (fun _ => 32) .rmii).2 0 >>>
        MII_CTRL_SPEED_SHIFT) &&& MII_CTRL_SPEED_MASK ≠
      ((32 : Nat) >>> MII_CTRL_SPEED_SHIFT) &&& MII_CTRL_SPEED_MASK := by
  exact ⟨rfl, by decide⟩

/-- C8 (amended): every successful `setSpeed` leaves the select field of the
port's register word unchanged, and every successful `setInterface` leaves
the speed field unchanged except when the requested mode is MII or RMII and
the stored speed code exceeds `MII_CTRL_SPEED_100` (1), in which case the
speed field is clamped to `MII_CTRL_SPEED_100`. -/
theorem mii_ctrl_frame_effects (hdl : MiiCtrlHandle) (portJunk : Nat)
    (regs : Nat → Nat) (iface : PhyInterfaceMode) (link_speed : Int) :
    ((mii_ctrl_set_speed hdl regs link_speed).1 = 0 →
      ((mii_ctrl_set_speed hdl regs link_speed).2 hdl.port >>>
          MII_CTRL_SELECT_SHIFT) &&& MII_CTRL_SELECT_MASK =
        (regs hdl.port >>> MII_CTRL_SELECT_SHIFT) &&& MII_CTRL_SELECT_MASK) ∧
    ((mii_ctrl_set_interface hdl portJunk regs iface).1 = 0 →
      ((mii_ctrl_set_interface hdl portJunk regs iface).2 hdl.port >>>
          MII_CTRL_SPEED_SHIFT) &&& MII_CTRL_SPEED_MASK =
        (if (iface = .mii ∨ iface = .rmii) ∧ MII_CTRL_SPEED_100 <
              (regs hdl.port >>> MII_CTRL_SPEED_SHIFT) &&& MII_CTRL_SPEED_MASK
         then MII_CTRL_SPEED_100
         else (regs hdl.port >>> MII_CTRL_SPEED_SHIFT) &&&
                MII_CTRL_SPEED_MASK)) := by
  constructor
  · intro h
    obtain ⟨speed, hsp, heq⟩ := set_speed_success_shape hdl regs link_speed h
    rw [heq]
    exact (mii_word_fields _ _ (select_field_le _) hsp).1
  · intro h
    obtain ⟨select, hsl, heq⟩ :=
      set_interface_success_shape hdl portJunk regs iface h
    rw [heq]
    refine (mii_word_fields _ _ hsl ?_).2
    split_ifs with hc
    · norm_num [MII_CTRL_SPEED_100]
    · exact speed_field_le _

/-- C8 witness: a successful `setSpeed(100)` preserves the select field, and
a successful `setInterface(RGMII)` on a gigabit-capable controller preserves
the speed field. -/
theorem mii_ctrl_frame_effects_witness :
    ((mii_ctrl_set_speed ⟨0, true⟩ (fun _ => 0) 100).2 0 >>>
        MII_CTRL_SELECT_SHIFT) &&& MII_CTRL_SELECT_MASK =
      (((fun _ => 0) : Nat → Nat) 0 >>> MII_CTRL_SELECT_SHIFT) &&&
        MII_CTRL_SELECT_MASK ∧
    ((mii_ctrl_set_interface ⟨0, true⟩ 0 (fun _ => 0) .rgmii).2 0 >>>
        MII_CTRL_SPEED_SHIFT) &&& MII_CTRL_SPEED_MASK =
      (if ((PhyInterfaceMode.rgmii = .mii ∨ PhyInterfaceMode.rgmii = .rmii) ∧
            MII_CTRL_SPEED_100 <
              (((fun _ => 0) : Nat → Nat) 0 >>> MII_CTRL_SPEED_SHIFT) &&&
                MII_CTRL_SPEED_MASK)
       then MII_CTRL_SPEED_100
       else (((fun _ => 0) : Nat → Nat) 0 >>> MII_CTRL_SPEED_SHIFT) &&&
              MII_CTRL_SPEED_MASK) :=
  ⟨(mii_ctrl_frame_effects ⟨0, true⟩ 0 (fun _ => 0) .rgmii 100).1 (by decide),
   (mii_ctrl_frame_effects ⟨0, true⟩ 0 (fun _ => 0) .rgmii 100).2 (by decide)⟩
